import Mathlib

/-!
Shallow embedding of the batch-CURLer repository (src/update_occupation.py and
src/add_comment.py): a sequential batch runner that, per CSV row, issues one
HTTP request to a case-management API and classifies the JSON response.

Modelling conventions:
* Python dicts produced by `response.json()` are modelled as association lists
  `Json = List (String × JVal)`; Python truthiness of a dict is non-emptiness.
* The network is an oracle: each row's HTTP interaction is summarised by a
  `HttpOut` value — either a delivered response (status, optional parsed JSON
  body, raw text) or a `requests.exceptions.RequestException` with a message.
* `str.isdigit` is modelled on the ASCII character domain (the occupation keys
  are fixed-width ASCII codes); `str.zfill` keeps Python's sign handling.
* `requests`' `raise_for_status` raises exactly for status codes in
  400–599 (client and server errors), per the library's implementation.
* Console printing of the payload (line 166 of update_occupation.py) and the
  debug print inside the exception handlers are omitted: they affect neither
  classification nor the error log. Log lines record the message text.
-/

/-- A JSON value as far as the scripts inspect one: strings, numbers,
booleans, null. `jvalToString` renders it as Python `str()` would inside
an f-string. -/
inductive JVal where
  | str (s : String)
  | num (n : Int)
  | bool (b : Bool)
  | null
deriving DecidableEq, Repr

/-- A parsed JSON object (Python dict), as an association list. -/
abbrev Json := List (String × JVal)

/-- First-match association-list lookup: models Python `d[k]` / `k in d`
on dicts (JSON-parsed dicts have unique keys). -/
def assocLookup {α : Type} : List (String × α) → String → Option α
  | [], _ => none
  | (k, v) :: rest, key => if k = key then some v else assocLookup rest key

/-- Python `str()` rendering of a JSON value, as used in the f-string that
builds the error-detail suffix. -/
def jvalToString : JVal → String
  | .str s => s
  | .num n => toString n
  | .bool b => if b then "True" else "False"
  | .null => "None"

/-- Python `result.get(key, default)` followed by f-string rendering. -/
def dictGetStr (j : Json) (key dflt : String) : String :=
  match assocLookup j key with
  | some v => jvalToString v
  | none => dflt

/-- One row's HTTP interaction, as seen by the script: either a delivered
response (HTTP status, the JSON object the body parses to — `none` when the
body is not valid JSON — and the raw body text), or a
`requests.exceptions.RequestException` carrying its message. -/
inductive HttpOut where
  | resp (status : Nat) (jsonBody : Option Json) (text : String)
  | exn (msg : String)
deriving DecidableEq, Repr

/-- Python `str.isdigit` on the ASCII domain: the string is non-empty and
every character is a decimal digit. -/
def pyIsDigit (s : String) : Bool :=
  !s.data.isEmpty && s.data.all Char.isDigit

/-- Python `str.zfill width`: left-pad with `'0'` to `width`; if the string
starts with a sign, the fill is inserted after the sign. Strings already at
least `width` long are returned unchanged. -/
def zfill (s : String) (width : Nat) : String :=
  if width ≤ s.data.length then s
  else
    let fill := List.replicate (width - s.data.length) '0'
    match s.data with
    | [] => ⟨fill⟩
    | c :: rest =>
      if c = '+' || c = '-' then ⟨c :: (fill ++ rest)⟩ else ⟨fill ++ c :: rest⟩

/-- Occupation-key normalization, from update_occupation.py lines 153–156:
`if occupation_value.isdigit() and len(occupation_value) < 3:
occupation_value = occupation_value.zfill(3)`. -/
def normalizeOccupationKey (s : String) : String :=
  if pyIsDigit s && decide (s.length < 3) then zfill s 3 else s

/-- `update_occupation` (update_occupation.py lines 59–88), viewed from the
response side: the body's JSON object when it parses; otherwise a synthetic
failure dict with the HTTP status and the raw text; on a transport exception
a synthetic failure dict with the `"RequestException"` marker and the
exception text. It always returns a dict, never `None`. -/
def update_occupation (out : HttpOut) : Json :=
  match out with
  | .resp status jsonBody text =>
    match jsonBody with
    | some result => result
    | none =>
      [("success", JVal.bool false),
       ("error_code", JVal.num status),
       ("error_message", JVal.str text)]
  | .exn msg =>
    [("success", JVal.bool false),
     ("error_code", JVal.str "RequestException"),
     ("error_message", JVal.str msg)]

/-- `response.raise_for_status()` raises `HTTPError` exactly for 4xx client
errors and 5xx server errors (the `requests` library's implementation). -/
def raiseForStatusRaises (status : Nat) : Bool :=
  (400 ≤ status && status < 500) || (500 ≤ status && status < 600)

/-- `add_comment` (add_comment.py lines 57–71), viewed from the response
side: `raise_for_status` turns a 4xx/5xx response into a caught
`RequestException`, and any caught `RequestException` (transport failure,
HTTP error status, JSON decode failure — `requests.exceptions.JSONDecodeError`
is a `RequestException`) yields `None`; otherwise the parsed JSON body is
returned. -/
def add_comment (out : HttpOut) : Option Json :=
  match out with
  | .resp status jsonBody _ =>
    if raiseForStatusRaises status then none
    else
      match jsonBody with
      | some j => some j
      | none => none
  | .exn _ => none

/-- The success test both mains apply to the call's result
(`if result and (('code' in result and result['code'] == '0'))`): the result
is truthy (not `None`, not an empty dict), has a `code` key, and its value is
the string `"0"`. -/
def resultIsSuccess (result : Option Json) : Bool :=
  match result with
  | none => false
  | some j =>
    !j.isEmpty &&
      (match assocLookup j "code" with
       | some (JVal.str s) => s == "0"
       | some _ => false
       | none => false)

/-- The error-detail suffix both mains append to the failure message:
non-empty exactly when the result is a dict whose `code` is present and
differs from `"0"`, in which case it carries `code`, `desc` and `data`
(with placeholders for absent fields). -/
def errorDetails (result : Option Json) : String :=
  match result with
  | none => ""
  | some j =>
    match assocLookup j "code" with
    | some v =>
      if v = JVal.str "0" then ""
      else
        " - Error code: " ++ jvalToString v ++
        ", Description: " ++ dictGetStr j "desc" "Unknown error" ++
        ", Data: " ++ dictGetStr j "data" "Unknown data"
    | none => ""

/-- One CSV row of the update mode: the `Applican ID`,
`Expected employment key` and `Expected occupation key` columns (the
occupation-key column is read with `dtype=str`, so it is a string). -/
structure Row where
  applicanID : String
  expectedEmploymentKey : String
  expectedOccupationKey : String
deriving DecidableEq, Repr

/-- One CSV row of the comment mode: the `Applican ID` and `Institution`
columns. -/
structure CommentRow where
  applicanID : String
  institution : String
deriving DecidableEq, Repr

/-- An outbound HTTP request as the scripts build one. -/
structure Request where
  method : String
  url : String
  headers : List (String × String)
  body : Json
deriving DecidableEq, Repr

/-- What processing one row leaves behind: the single request issued, the
success/failure classification, the lines printed to the console by
`log_success`/`log_failure`, and the lines written to the error log file. -/
structure RowTrace where
  request : Request
  success : Bool
  console : List String
  errorLog : List String
deriving DecidableEq, Repr

/-- `API_ENDPOINT.format(applicant_id=...)` of update_occupation.py. -/
def updateEndpoint (applicant_id : String) : String :=
  "/cms/v2/applicants/" ++ applicant_id ++ "/occupation"

/-- `COMMENT_API_ENDPOINT.format(...)` of add_comment.py. -/
def commentEndpoint (applicant_id institution_key : String) : String :=
  "/cms/v2/applicants/" ++ applicant_id ++ "/institutions/" ++
    institution_key ++ "/comment"

/-- The fixed comment text of add_comment.py lines 138–141. -/
def commentText : String :=
  "- Change occupation CMS note: Occupation updated due to data segregation issue from 2.0 to 3.0.\n- Change criminal subjected CMS note: Criminal subjected updated as user is from 2.0."

/-- The request payload built in update_occupation.py lines 158–163, with
the occupation key already normalized (lines 153–156). -/
def occupationPayload (row : Row) : Json :=
  [("employment_key", JVal.str row.expectedEmploymentKey),
   ("occupation_key", JVal.str (normalizeOccupationKey row.expectedOccupationKey)),
   ("is_public_politician", JVal.bool false),
   ("is_criminal_investigation", JVal.bool false)]

/-- The loop body of update_occupation.py `main` (lines 148–181) for one row:
build the payload, issue the single PUT, classify, and print/log. On success
`log_success` prints to the console only; on failure `log_failure` both
prints and writes the message to the error log. -/
def processRow (jwt base : String) (row : Row) (out : HttpOut) : RowTrace :=
  let req : Request :=
    { method := "PUT"
      url := base ++ updateEndpoint row.applicanID
      headers := [("Authorization", jwt), ("Content-Type", "application/json")]
      body := occupationPayload row }
  let result := update_occupation out
  if resultIsSuccess (some result) then
    { request := req
      success := true
      console := ["Successfully updated occupation for applicant " ++ row.applicanID]
      errorLog := [] }
  else
    let msg := "Failed to update occupation for applicant " ++ row.applicanID ++
      errorDetails (some result)
    { request := req, success := false, console := [msg], errorLog := [msg] }

/-- The loop body of add_comment.py `main` (lines 131–156) for one row:
issue the single POST with the fixed comment payload, classify, print/log. -/
def processCommentRow (jwt base : String) (row : CommentRow) (out : HttpOut) :
    RowTrace :=
  let req : Request :=
    { method := "POST"
      url := base ++ commentEndpoint row.applicanID row.institution
      headers := [("Authorization", jwt), ("Content-Type", "application/json")]
      body := [("comment", JVal.str commentText)] }
  let result := add_comment out
  if resultIsSuccess result then
    { request := req
      success := true
      console := ["Successfully add comment for applicant " ++ row.applicanID]
      errorLog := [] }
  else
    let msg := "Failed to add comment for applicant: " ++ row.applicanID ++
      errorDetails result
    { request := req, success := false, console := [msg], errorLog := [msg] }

/-- The `for index, row in df.iterrows()` loop of update_occupation.py:
rows are processed strictly in order, one HTTP attempt each; the oracle
gives row `i`'s HTTP outcome. -/
def runRows (jwt base : String) : List Row → (Nat → HttpOut) → List RowTrace
  | [], _ => []
  | row :: rest, oracle =>
    processRow jwt base row (oracle 0) ::
      runRows jwt base rest (fun i => oracle (i + 1))

/-- A configuration file on disk: whether `properties/config.properties`
exists, and the INI sections it contains when it does. -/
structure ConfigFile where
  present : Bool
  sections : List (String × List (String × String))
deriving DecidableEq, Repr

/-- `configparser.ConfigParser().read(path)`: a missing file is silently
ignored, yielding an empty configuration rather than raising. -/
def parsedConfig (f : ConfigFile) : List (String × List (String × String)) :=
  if f.present then f.sections else []

/-- The configuration record `read_config` returns. -/
structure Config where
  jwt_token : String
  api_base_url : String
deriving DecidableEq, Repr

/-- `read_config` (lines 10–43 of both scripts): checks
`Authorization.jwt_token` then `API.base_url`, raising `ValueError` on the
first absence; the generic handler re-wraps any such error as
`Error reading configuration: {msg}`. Since `configparser.read` never raises
`FileNotFoundError`, that branch of the source is unreachable and a missing
file surfaces as the missing-Authorization-section error. -/
def read_config (f : ConfigFile) : Except String Config :=
  let config := parsedConfig f
  match assocLookup config "Authorization" with
  | none =>
    .error "Error reading configuration: Authorization section not found in config file"
  | some auth =>
    match assocLookup auth "jwt_token" with
    | none =>
      .error "Error reading configuration: jwt_token key not found in Authorization section"
    | some tok =>
      match assocLookup config "API" with
      | none =>
        .error "Error reading configuration: API section not found in config file"
      | some api =>
        match assocLookup api "base_url" with
        | none =>
          .error "Error reading configuration: base_url key not found in API section"
        | some url => .ok { jwt_token := tok, api_base_url := url }

/-- What a whole run of update_occupation.py `main` leaves behind: the fatal
error message (printed and logged by `log_error`) when startup fails, and
the per-row traces otherwise. -/
structure RunTrace where
  fatalError : Option String
  rowTraces : List RowTrace
deriving Repr

/-- The HTTP requests a run issues, one per processed row. -/
def httpRequests (t : RunTrace) : List Request :=
  t.rowTraces.map (·.request)

/-- update_occupation.py `main` (lines 134–187): set up logging, read the
configuration — aborting with `Error in main process: {msg}` before any row
is touched if it fails — then process every row in order. -/
def mainRun (f : ConfigFile) (rows : List Row) (oracle : Nat → HttpOut) :
    RunTrace :=
  match read_config f with
  | .error e =>
    { fatalError := some ("Error in main process: " ++ e), rowTraces := [] }
  | .ok cfg =>
    { fatalError := none
      rowTraces := runRows cfg.jwt_token cfg.api_base_url rows oracle }

/-- List-level prefix test used by `strContains`. -/
def listPrefixOf : List Char → List Char → Bool
  | [], _ => true
  | _ :: _, [] => false
  | a :: as, b :: bs => a == b && listPrefixOf as bs

/-- Substring containment: `pat` occurs contiguously in `s`. -/
def strContains (s pat : String) : Bool :=
  (List.range (s.data.length + 1)).any fun i => listPrefixOf pat.data (s.data.drop i)

/-! ### Padding lemmas -/

theorem string_length_mk (l : List Char) : (String.mk l).length = l.length := rfl

theorem zfill_pad (l : List Char) (hd : l.all Char.isDigit = true)
    (hlen : l.length < 3) :
    zfill ⟨l⟩ 3 = String.mk (List.replicate (3 - l.length) '0') ++ ⟨l⟩ := by
  unfold zfill
  rw [if_neg (by simp only [String.data]; omega)]
  cases l with
  | nil => rfl
  | cons c rest =>
    have hc : c.isDigit = true := by
      simp only [List.all_cons, Bool.and_eq_true] at hd
      exact hd.1
    have hplus : c ≠ '+' := by
      intro hEq; subst hEq; simp [Char.isDigit] at hc
    have hminus : c ≠ '-' := by
      intro hEq; subst hEq; simp [Char.isDigit] at hc
    simp only [String.data]
    rw [if_neg (by simp [hplus, hminus])]
    rfl

theorem normalize_pad (s : String) (h : pyIsDigit s = true) (hlen : s.length < 3) :
    normalizeOccupationKey s =
      String.mk (List.replicate (3 - s.length) '0') ++ s := by
  unfold normalizeOccupationKey
  rw [if_pos (by simp [h, hlen])]
  obtain ⟨l⟩ := s
  have hd : l.all Char.isDigit = true := by
    simp only [pyIsDigit, Bool.and_eq_true] at h
    exact h.2
  exact zfill_pad l hd hlen

theorem normalize_length (s : String) (h : pyIsDigit s = true)
    (hlen : s.length < 3) : (normalizeOccupationKey s).length = 3 := by
  rw [normalize_pad s h hlen]
  obtain ⟨l⟩ := s
  show (String.mk (List.replicate (3 - l.length) '0' ++ l)).length = 3
  rw [string_length_mk, List.length_append, List.length_replicate]
  have : l.length < 3 := hlen
  omega

theorem normalize_noop (s : String)
    (h : ¬ (pyIsDigit s = true ∧ s.length < 3)) :
    normalizeOccupationKey s = s := by
  unfold normalizeOccupationKey
  rw [if_neg]
  simpa only [Bool.and_eq_true, decide_eq_true_eq] using h

/-! ### Claims about occupation-key normalization -/

/-- C1. Occupation-key normalization: an all-digit string shorter than 3 is
left-padded with zeros to length exactly 3; every other string (length ≥ 3,
any non-digit character, or empty) passes through unchanged; and the spec's
four examples hold. -/
theorem spec_c1 :
    (∀ s : String, pyIsDigit s = true → s.length < 3 →
        normalizeOccupationKey s =
          String.mk (List.replicate (3 - s.length) '0') ++ s ∧
        (normalizeOccupationKey s).length = 3) ∧
    (∀ s : String, ¬ (pyIsDigit s = true ∧ s.length < 3) →
        normalizeOccupationKey s = s) ∧
    normalizeOccupationKey "7" = "007" ∧
    normalizeOccupationKey "042" = "042" ∧
    normalizeOccupationKey "1234" = "1234" ∧
    normalizeOccupationKey "0A7" = "0A7" ∧
    normalizeOccupationKey "" = "" :=
  ⟨fun s h hl => ⟨normalize_pad s h hl, normalize_length s h hl⟩,
   fun s h => normalize_noop s h,
   by decide, by decide, by decide, by decide, by decide⟩

/-- C1 witness: both branches of the normalization instantiated at the
concrete inputs `"7"` (padded) and `"0A7"` (passed through). -/
theorem spec_c1_witness :
    (pyIsDigit "7" = true ∧ "7".length < 3 ∧
      normalizeOccupationKey "7" =
        String.mk (List.replicate (3 - "7".length) '0') ++ "7" ∧
      (normalizeOccupationKey "7").length = 3) ∧
    (¬ (pyIsDigit "0A7" = true ∧ "0A7".length < 3) ∧
      normalizeOccupationKey "0A7" = "0A7") :=
  ⟨⟨by decide, by decide, (spec_c1.1 "7" (by decide) (by decide)).1,
    (spec_c1.1 "7" (by decide) (by decide)).2⟩,
   ⟨by decide, spec_c1.2.1 "0A7" (by decide)⟩⟩

/-- C8. Idempotence of normalization: applying it twice equals applying it
once, and on all-digit non-empty input one application always yields a
string of length at least 3 (so a second application is a no-op). -/
theorem spec_c8 :
    (∀ s : String,
        normalizeOccupationKey (normalizeOccupationKey s) =
          normalizeOccupationKey s) ∧
    (∀ s : String, pyIsDigit s = true →
        3 ≤ (normalizeOccupationKey s).length) := by
  constructor
  · intro s
    by_cases h : pyIsDigit s = true ∧ s.length < 3
    · have h3 := normalize_length s h.1 h.2
      apply normalize_noop
      rintro ⟨-, hlt⟩
      omega
    · rw [normalize_noop s h, normalize_noop s h]
  · intro s h
    by_cases hl : s.length < 3
    · rw [normalize_length s h hl]
    · rw [normalize_noop s (fun hc => hl hc.2)]
      omega

/-- C8 witness: idempotence and the length bound at the concrete all-digit
input `"7"`. -/
theorem spec_c8_witness :
    normalizeOccupationKey (normalizeOccupationKey "7") =
      normalizeOccupationKey "7" ∧
    (pyIsDigit "7" = true ∧ 3 ≤ (normalizeOccupationKey "7").length) :=
  ⟨spec_c8.1 "7", by decide, spec_c8.2 "7" (by decide)⟩

/-! ### Classification lemmas -/

theorem assocLookup_isEmpty_false {α : Type} (j : List (String × α))
    (k : String) (v : α) (h : assocLookup j k = some v) : j.isEmpty = false := by
  cases j with
  | nil => simp [assocLookup] at h
  | cons p rest => rfl

theorem resultIsSuccess_code_zero (j : Json)
    (h : assocLookup j "code" = some (JVal.str "0")) :
    resultIsSuccess (some j) = true := by
  simp [resultIsSuccess, h, assocLookup_isEmpty_false j "code" _ h]

theorem resultIsSuccess_code_ne_zero (j : Json) (v : JVal)
    (h : assocLookup j "code" = some v) (hv : v ≠ JVal.str "0") :
    resultIsSuccess (some j) = false := by
  simp only [resultIsSuccess, h, Bool.and_eq_false_iff]
  right
  cases v with
  | str s =>
    have : s ≠ "0" := fun hs => hv (by rw [hs])
    simpa using this
  | num n => rfl
  | bool b => rfl
  | null => rfl

/-! ### Claims about result classification -/

/-- C2 counterexample: a response with the non-2xx HTTP status 404 whose
body is valid JSON with `code == "0"` is classified success by the update
mode, refuting the claim's conjunct that a non-2xx HTTP status is always
classified failure. -/
theorem spec_c2_counterexample :
    resultIsSuccess (some (update_occupation
      (HttpOut.resp 404 (some [("code", JVal.str "0")]) "Not Found"))) = true := by
  decide

/-- C2 (amended). In update mode, a row is classified success exactly when
the response body parses as JSON containing a `code` field equal to the
string `"0"`: any other `code` value, a missing `code` field, an unparseable
body, or a transport exception is failure — but the HTTP status code is
ignored, so this holds for non-2xx responses as well. -/
theorem spec_c2 (out : HttpOut) :
    resultIsSuccess (some (update_occupation out)) = true ↔
      ∃ status j text, out = HttpOut.resp status (some j) text ∧
        assocLookup j "code" = some (JVal.str "0") := by
  constructor
  · intro h
    cases out with
    | exn msg => simp [update_occupation, resultIsSuccess, assocLookup] at h
    | resp status jsonBody text =>
      cases jsonBody with
      | none => simp [update_occupation, resultIsSuccess, assocLookup] at h
      | some j =>
        refine ⟨status, j, text, rfl, ?_⟩
        simp only [update_occupation, resultIsSuccess, Bool.and_eq_true] at h
        cases hc : assocLookup j "code" with
        | none => rw [hc] at h; simp at h
        | some v =>
          rw [hc] at h
          cases v with
          | str s =>
            have : s = "0" := by simpa using h.2
            rw [this]
          | num n => simp at h
          | bool b => simp at h
          | null => simp at h
  · rintro ⟨status, j, text, rfl, hcode⟩
    simpa [update_occupation] using resultIsSuccess_code_zero j hcode

/-! ### Claim about request construction -/

theorem processRow_request (jwt base : String) (row : Row) (out : HttpOut) :
    (processRow jwt base row out).request =
      { method := "PUT"
        url := base ++ updateEndpoint row.applicanID
        headers := [("Authorization", jwt), ("Content-Type", "application/json")]
        body := occupationPayload row } := by
  simp only [processRow]
  split <;> rfl

/-- C3. Request construction: every row yields a PUT to
`{base}/cms/v2/applicants/{applicant_id}/occupation` with the
`Authorization` and `Content-Type` headers and the four-field payload whose
occupation key is normalized; for the row
`{Applican ID: "A1", Expected employment key: "E9",
Expected occupation key: "7"}` the payload's occupation key is `"007"`. -/
theorem spec_c3 (jwt base : String) (row : Row) (out : HttpOut) :
    (processRow jwt base row out).request =
      { method := "PUT"
        url := base ++ "/cms/v2/applicants/" ++ row.applicanID ++ "/occupation"
        headers := [("Authorization", jwt), ("Content-Type", "application/json")]
        body :=
          [("employment_key", JVal.str row.expectedEmploymentKey),
           ("occupation_key",
             JVal.str (normalizeOccupationKey row.expectedOccupationKey)),
           ("is_public_politician", JVal.bool false),
           ("is_criminal_investigation", JVal.bool false)] } ∧
    (processRow jwt base
        { applicanID := "A1", expectedEmploymentKey := "E9",
          expectedOccupationKey := "7" } out).request.body =
      [("employment_key", JVal.str "E9"),
       ("occupation_key", JVal.str "007"),
       ("is_public_politician", JVal.bool false),
       ("is_criminal_investigation", JVal.bool false)] := by
  constructor
  · rw [processRow_request]
    simp [updateEndpoint, occupationPayload, String.append_assoc]
  · rw [processRow_request]
    show occupationPayload _ = _
    decide

/-! ### Claim about per-row independence -/

/-- C4. Per-row independence: the run is a total function producing exactly
one trace (hence exactly one HTTP request) per input row, and the trace at
every position `i` is determined by row `i` and outcome `i` alone — so no
per-row failure can abort the run, skip a later row, retry, or affect any
other row, and rows are processed in order. -/
theorem spec_c4 (jwt base : String) (rows : List Row) (oracle : Nat → HttpOut) :
    (runRows jwt base rows oracle).length = rows.length ∧
    ((runRows jwt base rows oracle).map (fun t => t.request)).length =
      rows.length ∧
    ∀ i, (runRows jwt base rows oracle)[i]? =
      (rows[i]?).map fun r => processRow jwt base r (oracle i) := by
  have hlen : ∀ (rs : List Row) (g : Nat → HttpOut),
      (runRows jwt base rs g).length = rs.length := by
    intro rs
    induction rs with
    | nil => intro g; rfl
    | cons r rest ih => intro g; simp [runRows, ih]
  have hget : ∀ (rs : List Row) (g : Nat → HttpOut) (i : Nat),
      (runRows jwt base rs g)[i]? =
        (rs[i]?).map fun r => processRow jwt base r (g i) := by
    intro rs
    induction rs with
    | nil => intro g i; simp [runRows]
    | cons r rest ih =>
      intro g i
      cases i with
      | zero => simp [runRows]
      | succ n =>
        simp only [runRows, List.getElem?_cons_succ]
        exact ih (fun k => g (k + 1)) n
  exact ⟨hlen rows oracle, by simp [hlen rows oracle], hget rows oracle⟩

/-! ### Claim about transport-failure result shapes -/

/-- C5. Transport-failure shapes: on a transport exception the occupation
updater returns the synthetic failure dict with the `"RequestException"`
marker and the exception text, and the row is logged as a failure; the
comment adder returns `None`, which the caller treats as failure but logs
with no structured diagnostic suffix. -/
theorem spec_c5 (msg jwt base : String) (row : Row) (crow : CommentRow) :
    update_occupation (HttpOut.exn msg) =
      [("success", JVal.bool false),
       ("error_code", JVal.str "RequestException"),
       ("error_message", JVal.str msg)] ∧
    (processRow jwt base row (HttpOut.exn msg)).success = false ∧
    (processRow jwt base row (HttpOut.exn msg)).errorLog =
      ["Failed to update occupation for applicant " ++ row.applicanID] ∧
    add_comment (HttpOut.exn msg) = none ∧
    (processCommentRow jwt base crow (HttpOut.exn msg)).success = false ∧
    (processCommentRow jwt base crow (HttpOut.exn msg)).errorLog =
      ["Failed to add comment for applicant: " ++ crow.applicanID] := by
  refine ⟨rfl, rfl, ?_, rfl, rfl, ?_⟩
  · show ["Failed to update occupation for applicant " ++ row.applicanID ++
      errorDetails (some (update_occupation (HttpOut.exn msg)))] = _
    simp [errorDetails, update_occupation, assocLookup]
  · show ["Failed to add comment for applicant: " ++ crow.applicanID ++
      errorDetails (add_comment (HttpOut.exn msg))] = _
    simp [errorDetails, add_comment]

/-! ### Claim about the error-log invariant -/

/-- C6. Error-log invariant: a row whose response has `code == "0"` is
classified success, writes nothing to the error log, and its success
message goes only to standard output; a row whose response has any other
`code` value, or that raises a transport exception, is classified failure
and a line containing the applicant identifier is written to the error
log. -/
theorem spec_c6 (jwt base : String) (row : Row) :
    (∀ status j text, assocLookup j "code" = some (JVal.str "0") →
        (processRow jwt base row (HttpOut.resp status (some j) text)).success =
          true ∧
        (processRow jwt base row (HttpOut.resp status (some j) text)).errorLog =
          [] ∧
        (processRow jwt base row (HttpOut.resp status (some j) text)).console =
          ["Successfully updated occupation for applicant " ++
            row.applicanID]) ∧
    (∀ status j text v, assocLookup j "code" = some v → v ≠ JVal.str "0" →
        (processRow jwt base row (HttpOut.resp status (some j) text)).success =
          false ∧
        ∃ a b line,
          (processRow jwt base row
            (HttpOut.resp status (some j) text)).errorLog = [line] ∧
          line = a ++ row.applicanID ++ b) ∧
    (∀ msg,
        (processRow jwt base row (HttpOut.exn msg)).success = false ∧
        ∃ a b line,
          (processRow jwt base row (HttpOut.exn msg)).errorLog = [line] ∧
          line = a ++ row.applicanID ++ b) := by
  refine ⟨?_, ?_, ?_⟩
  · intro status j text hcode
    have hs : resultIsSuccess (some (update_occupation
        (HttpOut.resp status (some j) text))) = true := by
      simpa [update_occupation] using resultIsSuccess_code_zero j hcode
    simp only [processRow]
    rw [if_pos hs]
    exact ⟨rfl, rfl, rfl⟩
  · intro status j text v hcode hv
    have hs : resultIsSuccess (some (update_occupation
        (HttpOut.resp status (some j) text))) = false := by
      simpa [update_occupation] using resultIsSuccess_code_ne_zero j v hcode hv
    simp only [processRow]
    rw [if_neg (by simp [hs])]
    exact ⟨rfl, "Failed to update occupation for applicant ",
      errorDetails (some (update_occupation (HttpOut.resp status (some j) text))),
      _, rfl, rfl⟩
  · intro msg
    have hs : resultIsSuccess (some (update_occupation (HttpOut.exn msg))) =
        false := rfl
    simp only [processRow]
    rw [if_neg (by simp [hs])]
    exact ⟨rfl, "Failed to update occupation for applicant ",
      errorDetails (some (update_occupation (HttpOut.exn msg))), _, rfl, rfl⟩

/-- C6 witness: the three scenarios instantiated at applicant `"A1"` —
a `code "0"` response leaves the error log empty, a `code "5"` response and
a transport exception are failures. -/
theorem spec_c6_witness :
    (assocLookup ([("code", JVal.str "0")] : Json) "code" =
        some (JVal.str "0") ∧
      (processRow "J" "B" ⟨"A1", "E9", "7"⟩
        (HttpOut.resp 200 (some [("code", JVal.str "0")]) "")).errorLog = []) ∧
    (processRow "J" "B" ⟨"A1", "E9", "7"⟩
      (HttpOut.resp 200 (some [("code", JVal.str "5")]) "")).success = false ∧
    (processRow "J" "B" ⟨"A1", "E9", "7"⟩ (HttpOut.exn "boom")).success =
      false :=
  ⟨⟨rfl, ((spec_c6 "J" "B" ⟨"A1", "E9", "7"⟩).1 200 [("code", JVal.str "0")]
      "" rfl).2.1⟩,
   ((spec_c6 "J" "B" ⟨"A1", "E9", "7"⟩).2.1 200 [("code", JVal.str "5")] ""
      (JVal.str "5") rfl (by decide)).1,
   ((spec_c6 "J" "B" ⟨"A1", "E9", "7"⟩).2.2 "boom").1⟩

/-! ### Claims about configuration failure -/

theorem read_config_ok_shape (f : ConfigFile) (cfg : Config)
    (h : read_config f = Except.ok cfg) :
    ∃ auth api, assocLookup (parsedConfig f) "Authorization" = some auth ∧
      assocLookup auth "jwt_token" = some cfg.jwt_token ∧
      assocLookup (parsedConfig f) "API" = some api ∧
      assocLookup api "base_url" = some cfg.api_base_url := by
  simp only [read_config] at h
  split at h
  · exact absurd h (by simp)
  next auth hauth =>
    split at h
    · exact absurd h (by simp)
    next tok htok =>
      split at h
      · exact absurd h (by simp)
      next api hapi =>
        split at h
        · exact absurd h (by simp)
        next url hurl =>
          cases h
          exact ⟨auth, api, hauth, htok, hapi, hurl⟩

/-- C7. Configuration failure is fatal and precedes I/O: a missing
`[Authorization]` section aborts the run with a fatal message mentioning
"Authorization section not found" and no HTTP calls; and more generally an
absent file, an absent section, or an absent key within a present section
makes `read_config` fail, which aborts the run before any row is
processed. -/
theorem spec_c7 (f : ConfigFile) (rows : List Row) (oracle : Nat → HttpOut) :
    (assocLookup (parsedConfig f) "Authorization" = none →
      ∃ msg, (mainRun f rows oracle).fatalError = some msg ∧
        strContains msg "Authorization section not found" = true ∧
        httpRequests (mainRun f rows oracle) = [] ∧
        (mainRun f rows oracle).rowTraces = []) ∧
    (∀ e, read_config f = Except.error e →
      httpRequests (mainRun f rows oracle) = [] ∧
      (mainRun f rows oracle).rowTraces = []) ∧
    (f.present = false → ∃ e, read_config f = Except.error e) ∧
    (assocLookup (parsedConfig f) "Authorization" = none →
      ∃ e, read_config f = Except.error e) ∧
    (assocLookup (parsedConfig f) "API" = none →
      ∃ e, read_config f = Except.error e) ∧
    (∀ sec, assocLookup (parsedConfig f) "Authorization" = some sec →
      assocLookup sec "jwt_token" = none →
      ∃ e, read_config f = Except.error e) ∧
    (∀ sec, assocLookup (parsedConfig f) "API" = some sec →
      assocLookup sec "base_url" = none →
      ∃ e, read_config f = Except.error e) := by
  have hauth : assocLookup (parsedConfig f) "Authorization" = none →
      read_config f = Except.error
        "Error reading configuration: Authorization section not found in config file" := by
    intro h
    simp only [read_config, h]
  have habort : ∀ e, read_config f = Except.error e →
      httpRequests (mainRun f rows oracle) = [] ∧
      (mainRun f rows oracle).rowTraces = [] := by
    intro e h
    simp [mainRun, h, httpRequests]
  refine ⟨?_, habort, ?_, fun h => ⟨_, hauth h⟩, ?_, ?_, ?_⟩
  · intro h
    refine ⟨"Error in main process: Error reading configuration: Authorization section not found in config file",
      ?_, by decide, habort _ (hauth h)⟩
    simp [mainRun, hauth h]
  · intro h
    refine ⟨_, hauth ?_⟩
    simp [parsedConfig, h, assocLookup]
  · intro h
    cases hr : read_config f with
    | error e => exact ⟨e, rfl⟩
    | ok cfg =>
      obtain ⟨auth, api, -, -, hapi, -⟩ := read_config_ok_shape f cfg hr
      rw [h] at hapi
      simp at hapi
  · intro sec h1 h2
    cases hr : read_config f with
    | error e => exact ⟨e, rfl⟩
    | ok cfg =>
      obtain ⟨auth, api, hauth, htok, -, -⟩ := read_config_ok_shape f cfg hr
      rw [h1] at hauth
      injection hauth with he
      subst he
      rw [h2] at htok
      simp at htok
  · intro sec h1 h2
    cases hr : read_config f with
    | error e => exact ⟨e, rfl⟩
    | ok cfg =>
      obtain ⟨auth, api, -, -, hapi, hurl⟩ := read_config_ok_shape f cfg hr
      rw [h1] at hapi
      injection hapi with he
      subst he
      rw [h2] at hurl
      simp at hurl

/-- C7 witness: a present configuration file with no sections at all — the
`Authorization` lookup fails, the run aborts with the expected message, and
no HTTP request is issued. -/
theorem spec_c7_witness :
    assocLookup (parsedConfig ⟨true, []⟩) "Authorization" = none ∧
    ∃ msg,
      (mainRun ⟨true, []⟩ [] (fun _ => HttpOut.exn "down")).fatalError =
        some msg ∧
      strContains msg "Authorization section not found" = true ∧
      httpRequests (mainRun ⟨true, []⟩ [] (fun _ => HttpOut.exn "down")) = [] ∧
      (mainRun ⟨true, []⟩ [] (fun _ => HttpOut.exn "down")).rowTraces = [] :=
  ⟨rfl, (spec_c7 ⟨true, []⟩ [] (fun _ => HttpOut.exn "down")).1 rfl⟩

/-! ### Claim about the unreachable missing-file handler -/

/-- C9. When the configuration file is absent, `configparser.read` silently
yields an empty configuration, so `read_config` fails with the
missing-Authorization-section message wrapped as a configuration-reading
error; the run aborts with no HTTP calls, the reported error never mentions
a missing file, and no input at all can produce an error message mentioning
a missing file (the `FileNotFoundError` handler is unreachable). -/
theorem spec_c9 (f : ConfigFile) (rows : List Row) (oracle : Nat → HttpOut) :
    (f.present = false →
      read_config f = Except.error
        "Error reading configuration: Authorization section not found in config file" ∧
      (mainRun f rows oracle).fatalError = some
        "Error in main process: Error reading configuration: Authorization section not found in config file" ∧
      httpRequests (mainRun f rows oracle) = [] ∧
      strContains
        "Error in main process: Error reading configuration: Authorization section not found in config file"
        "Config file not found" = false) ∧
    (∀ e, read_config f = Except.error e →
      strContains e "Config file not found" = false) := by
  have hmsgs : ∀ e, read_config f = Except.error e →
      e = "Error reading configuration: Authorization section not found in config file" ∨
      e = "Error reading configuration: jwt_token key not found in Authorization section" ∨
      e = "Error reading configuration: API section not found in config file" ∨
      e = "Error reading configuration: base_url key not found in API section" := by
    intro e h
    simp only [read_config] at h
    split at h
    · exact Or.inl (Except.error.injEq .. ▸ h.symm)
    · split at h
      · exact Or.inr (Or.inl (Except.error.injEq .. ▸ h.symm))
      · split at h
        · exact Or.inr (Or.inr (Or.inl (Except.error.injEq .. ▸ h.symm)))
        · split at h
          · exact Or.inr (Or.inr (Or.inr (Except.error.injEq .. ▸ h.symm)))
          · exact absurd h (by simp)
  constructor
  · intro h
    have hcfg : read_config f = Except.error
        "Error reading configuration: Authorization section not found in config file" := by
      simp only [read_config, parsedConfig, h, if_false, Bool.false_eq_true,
        ite_false, assocLookup]
    refine ⟨hcfg, ?_, ?_, by decide⟩
    · simp [mainRun, hcfg]
    · simp [mainRun, hcfg, httpRequests]
  · intro e h
    rcases hmsgs e h with rfl | rfl | rfl | rfl <;> decide

/-- C9 witness: the absent configuration file, with the unreachable-handler
conjunct exercised on the error it produces. -/
theorem spec_c9_witness :
    ((⟨false, []⟩ : ConfigFile).present = false ∧
      read_config ⟨false, []⟩ = Except.error
        "Error reading configuration: Authorization section not found in config file" ∧
      httpRequests (mainRun ⟨false, []⟩ [] (fun _ => HttpOut.exn "down")) =
        []) ∧
    strContains
      "Error reading configuration: Authorization section not found in config file"
      "Config file not found" = false :=
  ⟨⟨rfl, ((spec_c9 ⟨false, []⟩ [] (fun _ => HttpOut.exn "down")).1 rfl).1,
    ((spec_c9 ⟨false, []⟩ [] (fun _ => HttpOut.exn "down")).1 rfl).2.2.1⟩,
   (spec_c9 ⟨false, []⟩ [] (fun _ => HttpOut.exn "down")).2
     "Error reading configuration: Authorization section not found in config file"
     (((spec_c9 ⟨false, []⟩ [] (fun _ => HttpOut.exn "down")).1 rfl).1)⟩

/-! ### Claim about the two modes' status handling -/

/-- C10 counterexample: HTTP status 300 is not 2xx, yet a 300 response whose
body is JSON with `code == "0"` is classified success by the comment adder —
`raise_for_status` raises only for 4xx/5xx — refuting the claim that the
comment adder classifies every non-2xx response as failure regardless of
body. -/
theorem spec_c10_counterexample :
    resultIsSuccess (add_comment
      (HttpOut.resp 300 (some [("code", JVal.str "0")]) "Multiple Choices")) =
      true := by
  decide

/-- C10 (amended). The two modes classify error statuses differently: the
comment adder calls `raise_for_status`, so every response with a 4xx or 5xx
status is classified failure regardless of its body (3xx statuses do not
raise and are classified by body content), whereas the occupation updater
ignores the HTTP status entirely and classifies by body alone; hence a
4xx/5xx response whose body is valid JSON with `code == "0"` is success in
update mode but failure in comment mode. -/
theorem spec_c10 (status : Nat) (j : Json) (text : String) :
    (400 ≤ status → status < 600 →
      resultIsSuccess (add_comment (HttpOut.resp status (some j) text)) =
        false) ∧
    (resultIsSuccess (some (update_occupation
        (HttpOut.resp status (some j) text))) = resultIsSuccess (some j)) ∧
    (assocLookup j "code" = some (JVal.str "0") → 400 ≤ status →
      status < 600 →
      resultIsSuccess (some (update_occupation
        (HttpOut.resp status (some j) text))) = true ∧
      resultIsSuccess (add_comment (HttpOut.resp status (some j) text)) =
        false) := by
  have hraise : 400 ≤ status → status < 600 →
      raiseForStatusRaises status = true := by
    intro h4 h6
    simp only [raiseForStatusRaises, Bool.or_eq_true, Bool.and_eq_true,
      decide_eq_true_eq]
    omega
  have hfail : 400 ≤ status → status < 600 →
      resultIsSuccess (add_comment (HttpOut.resp status (some j) text)) =
        false := by
    intro h4 h6
    simp [add_comment, hraise h4 h6, resultIsSuccess]
  refine ⟨hfail, rfl, ?_⟩
  intro hcode h4 h6
  exact ⟨by simpa [update_occupation] using resultIsSuccess_code_zero j hcode,
    hfail h4 h6⟩

/-- C10 witness: a 404 response with body `{"code": "0"}` — failure for the
comment adder, success for the occupation updater. -/
theorem spec_c10_witness :
    (400 ≤ 404 ∧ 404 < 600 ∧
      resultIsSuccess (add_comment
        (HttpOut.resp 404 (some [("code", JVal.str "0")]) "nf")) = false) ∧
    (assocLookup ([("code", JVal.str "0")] : Json) "code" =
        some (JVal.str "0") ∧
      resultIsSuccess (some (update_occupation
        (HttpOut.resp 404 (some [("code", JVal.str "0")]) "nf"))) = true) :=
  ⟨⟨by decide, by decide,
    (spec_c10 404 [("code", JVal.str "0")] "nf").1 (by decide) (by decide)⟩,
   ⟨rfl,
    ((spec_c10 404 [("code", JVal.str "0")] "nf").2.2 rfl (by decide)
      (by decide)).1⟩⟩
